import Mathlib

/-!
Verification of the AIRobotAssistant animatronic-head control core.

Shallow embedding of the repository's Python sources:
* `AudioMouth` embeds `src/audio_mouth_controller.py` (class
  `AudioMouthController`): RMS amplitude extraction, sliding-window
  smoothing, threshold/power-curve mapping, asymmetric easing, the
  silence counter and the viseme ladder.  Audio samples are 16-bit
  integers modelled as `ℤ`; amplitudes and openings are real numbers.
* `Jaw` embeds `control_jaw_servo_direct` of
  `src/voice_assistant_server.py`: percent-to-angle interpolation, the
  deadband filter, the `SERVO_AVAILABLE` flag and the
  disconnection-message handling.  Angles are rationals.
* `Servo` embeds `src/servo_config.py` (class `ServoConfig` and the
  three catalog configurations).
* `Eye` embeds `EyeController.track_position` and `map_value` of
  `src/eye_controller.py`: the batch computation of per-axis gaze
  angles and the write phase.
* `Tracker` embeds `FaceTracker.get_closest_face` of
  `src/face_tracker.py`.
-/

namespace AudioMouth

/-- Constructor parameters of `AudioMouthController.__init__`. -/
structure Params where
  sample_rate : ℕ
  smoothing_window : ℕ
  min_threshold : ℝ
  max_threshold : ℝ
  close_speed : ℝ

/-- The parameters the server passes in `voice_assistant_server.py`
(equal to the constructor defaults). -/
noncomputable def defaultParams : Params :=
  { sample_rate := 24000
    smoothing_window := 3
    min_threshold := 0.015
    max_threshold := 0.25
    close_speed := 0.7 }

/-- Mutable state of `AudioMouthController`: the sliding amplitude
window (most recent sample last), the current and target openings, the
speaking flag and the consecutive-silence counter. -/
structure AMCState where
  amplitude_history : List ℝ
  current_opening : ℝ
  target_opening : ℝ
  is_speaking : Bool
  silence_counter : ℕ

/-- State set up by `__init__` (and restored by `reset`). -/
def initState : AMCState :=
  { amplitude_history := []
    current_opening := 0
    target_opening := 0
    is_speaking := false
    silence_counter := 0 }

/-- Root-mean-square amplitude of a chunk of 16-bit samples
(`np.sqrt(np.mean(audio_data.astype(float)**2))`). -/
noncomputable def rms (audio_data : List ℤ) : ℝ :=
  Real.sqrt (((audio_data.map (fun x => ((x : ℝ)) ^ 2)).sum) / audio_data.length)

/-- `deque(maxlen=w)` after appending one element on the right: the
oldest entries are dropped from the left so at most `w` remain. -/
def pushWindow (w : ℕ) (hist : List ℝ) (a : ℝ) : List ℝ :=
  let h := hist ++ [a]
  h.drop (h.length - w)

/-- `np.mean` of a list (the window is nonempty whenever the code takes
its mean). -/
noncomputable def meanList (l : List ℝ) : ℝ := l.sum / l.length

/-- The smoothed amplitude `process_audio_chunk` computes for a chunk:
normalize the RMS by 32768, push it into the window, take the mean. -/
noncomputable def smoothedAmp (p : Params) (s : AMCState) (audio_data : List ℤ) : ℝ :=
  meanList (pushWindow p.smoothing_window s.amplitude_history (rms audio_data / 32768))

/-- The loud-branch target opening: normalize the smoothed amplitude
across `[min_threshold, max_threshold]`, clamp to `[0,1]`, apply the
`** 0.8` power curve, scale to `[0,100]`. -/
noncomputable def targetOf (p : Params) (smoothed_amplitude : ℝ) : ℝ :=
  let normalized :=
    (smoothed_amplitude - p.min_threshold) / (p.max_threshold - p.min_threshold)
  let clamped := max 0 (min 1 normalized)
  clamped ^ (0.8 : ℝ) * 100

/-- The asymmetric easing step (lines 92–100 of
`audio_mouth_controller.py`): closing moves by
`(current - target) * close_speed` and is floored at the target;
opening moves by `(target - current) * 0.4` and is capped at it. -/
noncomputable def ease (close_speed current target : ℝ) : ℝ :=
  if target < current then
    max target (current - (current - target) * close_speed)
  else
    min target (current + (target - current) * 0.4)

/-- One call of `AudioMouthController.process_audio_chunk`: the new
state; its `current_opening` is the returned opening. -/
noncomputable def processChunk (p : Params) (s : AMCState) (audio_data : List ℤ) :
    AMCState :=
  let hist := pushWindow p.smoothing_window s.amplitude_history (rms audio_data / 32768)
  let smoothed_amplitude := smoothedAmp p s audio_data
  let tgt : ℝ :=
    if smoothed_amplitude < p.min_threshold then 0 else targetOf p smoothed_amplitude
  let cnt : ℕ :=
    if smoothed_amplitude < p.min_threshold then s.silence_counter + 1 else 0
  let spk : Bool :=
    if smoothed_amplitude < p.min_threshold then false
    else if 3 < tgt then true else false
  let eased := ease p.close_speed s.current_opening tgt
  { amplitude_history := hist
    current_opening := if cnt > 2 then 0 else eased
    target_opening := tgt
    is_speaking := spk
    silence_counter := cnt }

/-- Viseme categories returned by `get_viseme_from_opening`. -/
inductive Viseme where
  | CLOSED
  | NARROW
  | ROUNDED
  | MEDIUM
  | MEDIUM_OPEN
  | WIDE
deriving DecidableEq, Repr

/-- `AudioMouthController.get_viseme_from_opening`: the fixed ordered
threshold ladder. -/
noncomputable def get_viseme_from_opening (opening : ℝ) : Viseme :=
  if opening < 5 then .CLOSED
  else if opening < 20 then .NARROW
  else if opening < 35 then .ROUNDED
  else if opening < 50 then .MEDIUM
  else if opening < 70 then .MEDIUM_OPEN
  else .WIDE

end AudioMouth

namespace Jaw

/-- The settings `control_jaw_servo_direct` reads (with the defaults of
`DEFAULT_SETTINGS` in `voice_assistant_server.py`). -/
structure Settings where
  jaw_open_angle : ℚ
  jaw_close_angle : ℚ
  jaw_servo_min_change : ℚ

/-- `DEFAULT_SETTINGS`: open 100°, close 0°, deadband 2°. -/
def defaultSettings : Settings :=
  { jaw_open_angle := 100, jaw_close_angle := 0, jaw_servo_min_change := 2 }

/-- The module state `control_jaw_servo_direct` mutates: the tracked
jaw position (percent) and the process-wide `SERVO_AVAILABLE` flag. -/
structure JawState where
  jaw_position : ℚ
  servo_available : Bool
deriving DecidableEq

/-- Outcome of the one hardware write the call may attempt:
`servo_kit.servo[JAW_CHANNEL].angle = ...` either succeeds or raises an
exception carrying a message. -/
inductive WriteOutcome where
  | ok
  | fail (msg : String)

/-- Whether the first character list is a prefix of the second. -/
def charsPrefixOf : List Char → List Char → Bool
  | [], _ => true
  | _ :: _, [] => false
  | a :: as, b :: bs => a == b && charsPrefixOf as bs

/-- Whether the first character list occurs contiguously inside the
second (Python's `needle in haystack` on strings). -/
def charsContain (needle : List Char) : List Char → Bool
  | [] => charsPrefixOf needle []
  | b :: bs => charsPrefixOf needle (b :: bs) || charsContain needle bs

/-- `"No such device" in str(e) or "disconnected" in str(e).lower()`. -/
def msgIndicatesDisconnect (msg : String) : Bool :=
  charsContain "No such device".toList msg.toList ||
    charsContain "disconnected".toList msg.toLower.toList

/-- `clamp_angle` of `voice_assistant_server.py` with its default
bounds 0–180. -/
def clamp_angle (angle : ℚ) : ℚ := max 0 (min 180 angle)

/-- The linear percent-to-angle interpolation both the target and the
current servo angle use:
`close_angle + (open_angle - close_angle) * (percent / 100.0)`. -/
def angleOfPercent (st : Settings) (percent : ℚ) : ℚ :=
  st.jaw_close_angle + (st.jaw_open_angle - st.jaw_close_angle) * (percent / 100)

/-- One call of `control_jaw_servo_direct(opening_percent)`.  Returns
the new state and the angle written to the hardware (`none` when no
hardware write happened — the flag was down, the deadband suppressed
the write, or the write raised).  On a write failure whose message
indicates disconnection the `SERVO_AVAILABLE` flag is cleared; the
tracked `jaw_position` is updated only after a successful write. -/
def control_jaw_servo_direct (st : Settings) (outcome : WriteOutcome)
    (s : JawState) (opening_percent : ℚ) : JawState × Option ℚ :=
  if s.servo_available = false then (s, none)
  else
    let target_angle := angleOfPercent st opening_percent
    let current_servo_angle := angleOfPercent st s.jaw_position
    let angle_change := |target_angle - current_servo_angle|
    if angle_change > st.jaw_servo_min_change then
      match outcome with
      | .ok => (⟨opening_percent, s.servo_available⟩, some (clamp_angle target_angle))
      | .fail msg =>
          if msgIndicatesDisconnect msg then (⟨s.jaw_position, false⟩, none)
          else (s, none)
    else (s, none)

/-- A run of requests whose attempted hardware writes all succeed:
final state and the list of angles actually written. -/
def runJawOk (st : Settings) : JawState → List ℚ → JawState × List ℚ
  | s, [] => (s, [])
  | s, p :: ps =>
    let r := control_jaw_servo_direct st .ok s p
    let rest := runJawOk st r.1 ps
    (rest.1, r.2.toList ++ rest.2)

end Jaw

namespace Jaw

/-- Claim C3: for the jaw channel a requested write is suppressed (no
hardware write, tracked position unchanged) whenever the angle change
relative to the last accepted write is at most `min_change`; in the
three-request scenario — a first accepted request, a second within the
deadband of the first, a third whose cumulative delta exceeds it — the
first two requests produce exactly one hardware write (the first's) and
the third produces a second write. -/
theorem deadband_suppression (st : Settings) (s : JawState) (p1 p2 p3 : ℚ)
    (hav : s.servo_available = true)
    (h1 : |angleOfPercent st p1 - angleOfPercent st s.jaw_position|
            > st.jaw_servo_min_change)
    (h2 : |angleOfPercent st p2 - angleOfPercent st p1|
            ≤ st.jaw_servo_min_change)
    (h3 : |angleOfPercent st p3 - angleOfPercent st p1|
            > st.jaw_servo_min_change) :
    (∀ (s' : JawState) (q : ℚ), s'.servo_available = true →
        |angleOfPercent st q - angleOfPercent st s'.jaw_position|
          ≤ st.jaw_servo_min_change →
        control_jaw_servo_direct st .ok s' q = (s', none)) ∧
    (runJawOk st s [p1, p2]).2 = [clamp_angle (angleOfPercent st p1)] ∧
    (runJawOk st s [p1, p2]).1.jaw_position = p1 ∧
    (runJawOk st s [p1, p2, p3]).2
      = [clamp_angle (angleOfPercent st p1), clamp_angle (angleOfPercent st p3)] := by
  have suppress : ∀ (s' : JawState) (q : ℚ), s'.servo_available = true →
      |angleOfPercent st q - angleOfPercent st s'.jaw_position|
        ≤ st.jaw_servo_min_change →
      control_jaw_servo_direct st .ok s' q = (s', none) := by
    intro s' q hav' hle
    unfold control_jaw_servo_direct
    rw [if_neg (by simp [hav']), if_neg (not_lt.mpr hle)]
  have step1 : control_jaw_servo_direct st .ok s p1
      = (⟨p1, true⟩, some (clamp_angle (angleOfPercent st p1))) := by
    unfold control_jaw_servo_direct
    rw [if_neg (by simp [hav]), if_pos h1, hav]
  have step2 : control_jaw_servo_direct st .ok (⟨p1, true⟩ : JawState) p2
      = (⟨p1, true⟩, none) := suppress ⟨p1, true⟩ p2 rfl h2
  have step3 : control_jaw_servo_direct st .ok (⟨p1, true⟩ : JawState) p3
      = (⟨p3, true⟩, some (clamp_angle (angleOfPercent st p3))) := by
    unfold control_jaw_servo_direct
    rw [if_neg (by simp), if_pos h3]
  refine ⟨suppress, ?_, ?_, ?_⟩ <;>
    simp [runJawOk, step1, step2, step3]

/-- Witness for C3: with the default settings, from the initial closed
jaw, requests 50 %, 51 %, 54 % produce exactly the two writes 50° and
54°, the second request being suppressed by the 2° deadband. -/
theorem deadband_suppression_witness :
    (∀ (s' : JawState) (q : ℚ), s'.servo_available = true →
        |angleOfPercent defaultSettings q - angleOfPercent defaultSettings s'.jaw_position|
          ≤ defaultSettings.jaw_servo_min_change →
        control_jaw_servo_direct defaultSettings .ok s' q = (s', none)) ∧
    (runJawOk defaultSettings ⟨0, true⟩ [50, 51]).2
      = [clamp_angle (angleOfPercent defaultSettings 50)] ∧
    (runJawOk defaultSettings ⟨0, true⟩ [50, 51]).1.jaw_position = 50 ∧
    (runJawOk defaultSettings ⟨0, true⟩ [50, 51, 54]).2
      = [clamp_angle (angleOfPercent defaultSettings 50),
         clamp_angle (angleOfPercent defaultSettings 54)] :=
  deadband_suppression defaultSettings ⟨0, true⟩ 50 51 54 rfl
    (by norm_num [angleOfPercent, defaultSettings])
    (by norm_num [angleOfPercent, defaultSettings])
    (by norm_num [angleOfPercent, defaultSettings])

/-- Counterexample for C9 as stated: after a disconnection-shaped write
failure flips the flag, a later request is NOT a "table-only no-op" —
the position table is left untouched (the tracked jaw position stays 0
instead of moving to the requested 80 %). -/
theorem disconnect_table_not_updated_cex :
    ((control_jaw_servo_direct defaultSettings
        (.fail "No such device") ⟨0, true⟩ 50).1.servo_available = false) ∧
    ¬ ((control_jaw_servo_direct defaultSettings .ok
        (control_jaw_servo_direct defaultSettings
          (.fail "No such device") ⟨0, true⟩ 50).1 80).1.jaw_position = 80) := by
  have hmsg : msgIndicatesDisconnect "No such device" = true := by decide
  have h1 : control_jaw_servo_direct defaultSettings
      (.fail "No such device") (⟨0, true⟩ : JawState) 50 = (⟨0, false⟩, none) := by
    unfold control_jaw_servo_direct
    rw [if_neg (by simp), if_pos (by norm_num [angleOfPercent, defaultSettings])]
    simp [hmsg]
  have h2 : control_jaw_servo_direct defaultSettings .ok
      (⟨0, false⟩ : JawState) 80 = (⟨0, false⟩, none) := by
    unfold control_jaw_servo_direct
    rw [if_pos rfl]
  rw [h1, h2]
  norm_num

/-- Claim C9 (amended): when a hardware write fails with a message
indicating device disconnection, the process-wide servo-available flag
is cleared, the failing call performs no state change beyond the flag,
and every subsequent request — for any requested percentage and any
would-be write outcome — is a complete no-op: no hardware write and no
update of the tracked position table; the failure is degraded, never a
crash. -/
theorem disconnect_degrades (st : Settings) (s : JawState) (p : ℚ)
    (msg : String) (hav : s.servo_available = true)
    (hch : |angleOfPercent st p - angleOfPercent st s.jaw_position|
            > st.jaw_servo_min_change)
    (hmsg : msgIndicatesDisconnect msg = true) :
    (control_jaw_servo_direct st (.fail msg) s p).2 = none ∧
    (control_jaw_servo_direct st (.fail msg) s p).1.servo_available = false ∧
    (control_jaw_servo_direct st (.fail msg) s p).1.jaw_position
      = s.jaw_position ∧
    (∀ (q : ℚ) (outcome : WriteOutcome),
      control_jaw_servo_direct st outcome
        (control_jaw_servo_direct st (.fail msg) s p).1 q
        = ((control_jaw_servo_direct st (.fail msg) s p).1, none)) := by
  have hfail : control_jaw_servo_direct st (.fail msg) s p
      = (⟨s.jaw_position, false⟩, none) := by
    unfold control_jaw_servo_direct
    rw [if_neg (by simp [hav]), if_pos hch]
    simp [hmsg]
  refine ⟨by rw [hfail], by rw [hfail], by rw [hfail], ?_⟩
  intro q outcome
  rw [hfail]
  unfold control_jaw_servo_direct
  rw [if_pos rfl]

/-- Witness for C9 (amended): a concrete disconnection at the 50 %
request from the closed jaw, followed by an 80 % request. -/
theorem disconnect_degrades_witness :
    ((control_jaw_servo_direct defaultSettings
        (.fail "No such device") ⟨0, true⟩ 50).2 = none) ∧
    ((control_jaw_servo_direct defaultSettings
        (.fail "No such device") ⟨0, true⟩ 50).1.servo_available = false) ∧
    ((control_jaw_servo_direct defaultSettings
        (.fail "No such device") ⟨0, true⟩ 50).1.jaw_position = 0) ∧
    (∀ (q : ℚ) (outcome : WriteOutcome),
      control_jaw_servo_direct defaultSettings outcome
        (control_jaw_servo_direct defaultSettings
          (.fail "No such device") ⟨0, true⟩ 50).1 q
        = ((control_jaw_servo_direct defaultSettings
            (.fail "No such device") ⟨0, true⟩ 50).1, none)) :=
  disconnect_degrades defaultSettings ⟨0, true⟩ 50 "No such device" rfl
    (by norm_num [angleOfPercent, defaultSettings]) (by decide)

end Jaw

namespace Servo

/-- The data a `ServoConfig` instance carries (`servo_config.py`):
named channels, default angles, angle ranges and blink angles; the
dictionaries are association lists with unique keys. -/
structure ServoConfig where
  name : String
  servo_count : ℕ
  channels : List (String × ℕ)
  default_angles : List (String × ℚ)
  angle_ranges : List (String × (ℚ × ℚ))
  blink_angles : List (String × ℚ)

/-- `ServoConfig.get_channel`: `self.channels.get(servo_name)`. -/
def get_channel (cfg : ServoConfig) (servo_name : String) : Option ℕ :=
  cfg.channels.lookup servo_name

/-- `ServoConfig.get_default_angle`:
`self.default_angles.get(servo_name, 90)`. -/
def get_default_angle (cfg : ServoConfig) (servo_name : String) : ℚ :=
  (cfg.default_angles.lookup servo_name).getD 90

/-- `ServoConfig.get_angle_range`:
`self.angle_ranges.get(servo_name, (0, 180))`. -/
def get_angle_range (cfg : ServoConfig) (servo_name : String) : ℚ × ℚ :=
  (cfg.angle_ranges.lookup servo_name).getD (0, 180)

/-- `InMoovHeadConfig`. -/
def inmoovHeadConfig : ServoConfig :=
  { name := "InMoov Head"
    servo_count := 8
    channels :=
      [("left_eye_x", 0), ("left_eye_y", 1), ("left_upper_lid", 2),
       ("left_lower_lid", 3), ("right_eye_x", 4), ("right_eye_y", 5),
       ("right_upper_lid", 6), ("right_lower_lid", 7)]
    default_angles :=
      [("left_eye_x", 90), ("left_eye_y", 90), ("left_upper_lid", 70),
       ("left_lower_lid", 100), ("right_eye_x", 90), ("right_eye_y", 90),
       ("right_upper_lid", 120), ("right_lower_lid", 90)]
    angle_ranges :=
      [("left_eye_x", (57, 145)), ("left_eye_y", (52, 112)),
       ("left_upper_lid", (70, 180)), ("left_lower_lid", (10, 100)),
       ("right_eye_x", (57, 145)), ("right_eye_y", (52, 112)),
       ("right_upper_lid", (10, 120)), ("right_lower_lid", (90, 180))]
    blink_angles :=
      [("left_upper_lid", 180), ("left_lower_lid", 10),
       ("right_upper_lid", 10), ("right_lower_lid", 180)] }

/-- `OriginalConfig` (shared X/Y axes). -/
def originalConfig : ServoConfig :=
  { name := "Original (Shared Axes)"
    servo_count := 6
    channels :=
      [("eyes_x", 0), ("eyes_y", 1), ("left_upper_lid", 2),
       ("right_upper_lid", 3), ("left_lower_lid", 4), ("right_lower_lid", 5)]
    default_angles :=
      [("eyes_x", 100), ("eyes_y", 80), ("left_upper_lid", 70),
       ("right_upper_lid", 120), ("left_lower_lid", 100), ("right_lower_lid", 90)]
    angle_ranges :=
      [("eyes_x", (57, 145)), ("eyes_y", (52, 112)),
       ("left_upper_lid", (70, 180)), ("right_upper_lid", (10, 120)),
       ("left_lower_lid", (10, 100)), ("right_lower_lid", (90, 180))]
    blink_angles :=
      [("left_upper_lid", 180), ("right_upper_lid", 10),
       ("left_lower_lid", 10), ("right_lower_lid", 180)] }

/-- `SimpleConfig` (X/Y only, no eyelids; `blink_angles` undefined). -/
def simpleConfig : ServoConfig :=
  { name := "Simple (X/Y Only)"
    servo_count := 2
    channels := [("eyes_x", 0), ("eyes_y", 1)]
    default_angles := [("eyes_x", 90), ("eyes_y", 90)]
    angle_ranges := [("eyes_x", (0, 180)), ("eyes_y", (0, 180))]
    blink_angles := [] }

/-- Claim C10: configuration lookups are total — `get_channel` returns
an optional value (`none` exactly when the servo name is not in the
channel table, the stored channel otherwise), and for names absent from
the respective tables `get_default_angle` falls back to 90 and
`get_angle_range` to `(0, 180)`; no lookup raises. -/
theorem lookups_total (cfg : ServoConfig) (servo_name : String) :
    (cfg.channels.lookup servo_name = none →
      get_channel cfg servo_name = none) ∧
    (∀ c : ℕ, cfg.channels.lookup servo_name = some c →
      get_channel cfg servo_name = some c) ∧
    (cfg.default_angles.lookup servo_name = none →
      get_default_angle cfg servo_name = 90) ∧
    (cfg.angle_ranges.lookup servo_name = none →
      get_angle_range cfg servo_name = (0, 180)) := by
  refine ⟨fun h => h, fun c h => h, fun h => ?_, fun h => ?_⟩
  · simp [get_default_angle, h]
  · simp [get_angle_range, h]

/-- Witness for C10: the InMoov catalog entry queried for the
unconfigured name `"jaw"` yields `none`, the 90° default and the
`(0, 180)` range. -/
theorem lookups_total_witness :
    get_channel inmoovHeadConfig "jaw" = none ∧
    get_default_angle inmoovHeadConfig "jaw" = 90 ∧
    get_angle_range inmoovHeadConfig "jaw" = (0, 180) :=
  ⟨(lookups_total inmoovHeadConfig "jaw").1 (by decide),
   (lookups_total inmoovHeadConfig "jaw").2.2.1 (by decide),
   (lookups_total inmoovHeadConfig "jaw").2.2.2 (by decide)⟩

end Servo

namespace Eye

open Servo

/-- `map_value` of `eye_controller.py`: linear interpolation of `value`
from `[in_min, in_max]` to `[out_min, out_max]`. -/
def map_value (value in_min in_max out_min out_max : ℚ) : ℚ :=
  (value - in_min) * (out_max - out_min) / (in_max - in_min) + out_min

/-- The fields of `EyeController` that `track_position` reads: the rig
configuration and the right-eye alignment offsets. -/
structure EyeController where
  config : ServoConfig
  right_eye_x_offset : ℚ
  right_eye_y_offset : ℚ

/-- `EyeController.__init__` sets `right_eye_x_offset = 0` and
`right_eye_y_offset = 10`. -/
def mkEyeController (cfg : ServoConfig) : EyeController := ⟨cfg, 0, 10⟩

/-- One conditional insertion into the `angles_to_set` dictionary:
`if name in self.config.channels: angles_to_set[name] = angle`. -/
def axisEntry (ec : EyeController) (servo_name : String) (angle : ℚ) :
    List (String × ℚ) :=
  if (get_channel ec.config servo_name).isSome then [(servo_name, angle)] else []

/-- The batch of axis angles `track_position` computes before any servo
write (lines 133–175 of `eye_controller.py`), in insertion order. -/
def angles_to_set (ec : EyeController)
    (face_x face_y frame_width frame_height : ℚ) : List (String × ℚ) :=
  axisEntry ec "left_eye_x"
      (map_value face_x 0 frame_width (get_angle_range ec.config "left_eye_x").2
        (get_angle_range ec.config "left_eye_x").1) ++
  axisEntry ec "left_eye_y"
      (map_value face_y 0 frame_height (get_angle_range ec.config "left_eye_y").1
        (get_angle_range ec.config "left_eye_y").2) ++
  axisEntry ec "right_eye_x"
      (max (get_angle_range ec.config "right_eye_x").1
        (min (get_angle_range ec.config "right_eye_x").2
          (map_value face_x 0 frame_width (get_angle_range ec.config "right_eye_x").2
            (get_angle_range ec.config "right_eye_x").1 + ec.right_eye_x_offset))) ++
  axisEntry ec "right_eye_y"
      (max (get_angle_range ec.config "right_eye_y").1
        (min (get_angle_range ec.config "right_eye_y").2
          (map_value face_y 0 frame_height (get_angle_range ec.config "right_eye_y").2
            (get_angle_range ec.config "right_eye_y").1 + ec.right_eye_y_offset))) ++
  axisEntry ec "eye_x"
      (map_value face_x 0 frame_width (get_angle_range ec.config "eye_x").2
        (get_angle_range ec.config "eye_x").1) ++
  axisEntry ec "eye_y"
      (map_value face_y 0 frame_height (get_angle_range ec.config "eye_y").2
        (get_angle_range ec.config "eye_y").1)

/-- The write phase of `track_position` (lines 178–184): for every
batched axis with a configured channel, clamp the angle to the axis
range and write it to that channel. -/
def track_position_writes (ec : EyeController)
    (face_x face_y frame_width frame_height : ℚ) : List (ℕ × ℚ) :=
  (angles_to_set ec face_x face_y frame_width frame_height).filterMap fun na =>
    match get_channel ec.config na.1 with
    | some channel =>
        some (channel, max (get_angle_range ec.config na.1).1
          (min (get_angle_range ec.config na.1).2 na.2))
    | none => none

/-- What one iteration of `face_tracking_loop` sees from the tracker. -/
inductive Detection where
  | found (center_x center_y : ℚ)
  | lost

/-- The servo writes of one tracking tick (`face_tracking_loop` in
`voice_assistant_server.py`): `track_position` runs only when a face
was found; on a detection failure nothing is written. -/
def tracking_tick_writes (ec : EyeController) (d : Detection)
    (frame_width frame_height : ℚ) : List (ℕ × ℚ) :=
  match d with
  | .found fx fy => track_position_writes ec fx fy frame_width frame_height
  | .lost => []

/-- Claim C4 fails on the code: with the `simple` rig active (axes
`eyes_x`, `eyes_y`), a tick with a detected face computes and writes no
axis at all — `track_position` looks up the names `eye_x`/`eye_y`,
which no catalog rig uses — so the tick does not update every present
axis; a detection failure does write nothing. -/
theorem simple_rig_axes_never_updated :
    simpleConfig.channels ≠ [] ∧
    (get_channel simpleConfig "eyes_x").isSome = true ∧
    (get_channel simpleConfig "eyes_y").isSome = true ∧
    angles_to_set (mkEyeController simpleConfig) 320 240 640 480 = [] ∧
    tracking_tick_writes (mkEyeController simpleConfig) (.found 320 240) 640 480
      = [] ∧
    tracking_tick_writes (mkEyeController simpleConfig) .lost 640 480 = [] := by
  refine ⟨by decide, by decide, by decide, ?_, ?_, by decide⟩ <;>
    simp [tracking_tick_writes, track_position_writes, angles_to_set, axisEntry,
      get_channel, simpleConfig, mkEyeController, List.lookup]

/-- Claim C5 against the code: for the InMoov rig the computed batch
interpolates exactly as specified — a frame-center face maps the left
axes to the range midpoints and the right axes to the midpoint plus the
trim offset clamped to the range, and frame-edge X maps to the inverted
bounds — but for the `original` rig the axis `eyes_x`, though present,
receives no mapped angle at all (the code checks `eye_x`). -/
theorem gaze_mapping_on_rigs :
    (angles_to_set (mkEyeController inmoovHeadConfig) 320 240 640 480).lookup
        "left_eye_x" = some (map_value 320 0 640 145 57) ∧
    map_value 320 0 640 145 57 = (57 + 145) / 2 ∧
    (angles_to_set (mkEyeController inmoovHeadConfig) 320 240 640 480).lookup
        "left_eye_y" = some (map_value 240 0 480 52 112) ∧
    map_value 240 0 480 52 112 = (52 + 112) / 2 ∧
    (angles_to_set (mkEyeController inmoovHeadConfig) 320 240 640 480).lookup
        "right_eye_x" = some (max 57 (min 145 (map_value 320 0 640 145 57 + 0))) ∧
    (angles_to_set (mkEyeController inmoovHeadConfig) 320 240 640 480).lookup
        "right_eye_y" = some (max 52 (min 112 (map_value 240 0 480 112 52 + 10))) ∧
    max 52 (min 112 (map_value 240 0 480 112 52 + 10)) = (52 + 112) / 2 + 10 ∧
    map_value 0 0 640 145 57 = 145 ∧
    map_value 640 0 640 145 57 = 57 ∧
    (get_channel originalConfig "eyes_x").isSome = true ∧
    (angles_to_set (mkEyeController originalConfig) 320 240 640 480).lookup
        "eyes_x" = none := by
  refine ⟨?_, by norm_num [map_value], ?_, by norm_num [map_value], ?_, ?_,
    by norm_num [map_value], by norm_num [map_value], by norm_num [map_value],
    by decide, ?_⟩ <;>
    simp [angles_to_set, axisEntry, get_channel, get_angle_range,
      inmoovHeadConfig, originalConfig, mkEyeController, List.lookup]

end Eye

namespace Tracker

/-- A detected face rectangle `(x, y, w, h)` in pixel coordinates. -/
structure FaceRect where
  x : ℕ
  y : ℕ
  w : ℕ
  h : ℕ
deriving DecidableEq, Repr

/-- The squared Euclidean pixel distance between a face's center
`(x + w // 2, y + h // 2)` and the frame center
`(frame_width // 2, frame_height // 2)`. -/
def sqDist (frame_width frame_height : ℕ) (f : FaceRect) : ℤ :=
  (((f.x + f.w / 2 : ℕ) : ℤ) - ((frame_width / 2 : ℕ) : ℤ)) ^ 2 +
    (((f.y + f.h / 2 : ℕ) : ℤ) - ((frame_height / 2 : ℕ) : ℤ)) ^ 2

/-- The distance `get_closest_face` computes with `np.sqrt`. -/
noncomputable def distance (frame_width frame_height : ℕ) (f : FaceRect) : ℝ :=
  Real.sqrt ((sqDist frame_width frame_height f : ℤ) : ℝ)

/-- The loop of `get_closest_face`: the accumulator holds
`(closest_face, min_distance)`, starting from
`(None, float('inf'))` — so the first face always replaces `none` —
and a face replaces the accumulator exactly when its distance is
strictly smaller. -/
noncomputable def closestLoop (fw fh : ℕ) :
    List FaceRect → Option (FaceRect × ℝ) → Option (FaceRect × ℝ)
  | [], acc => acc
  | f :: fs, acc =>
    match acc with
    | none => closestLoop fw fh fs (some (f, distance fw fh f))
    | some gm =>
        if distance fw fh f < gm.2 then
          closestLoop fw fh fs (some (f, distance fw fh f))
        else closestLoop fw fh fs (some gm)

/-- `FaceTracker.get_closest_face`: `None` for no faces, otherwise the
face the loop keeps. -/
noncomputable def get_closest_face (faces : List FaceRect) (fw fh : ℕ) :
    Option FaceRect :=
  if faces.length = 0 then none
  else (closestLoop fw fh faces none).map Prod.fst

/-- The same selection on squared distances: keep the incumbent on
ties, replace it on a strictly smaller squared distance. -/
def pickClosest (fw fh : ℕ) : FaceRect → List FaceRect → FaceRect
  | g, [] => g
  | g, f :: fs =>
    if sqDist fw fh f < sqDist fw fh g then pickClosest fw fh f fs
    else pickClosest fw fh g fs

lemma sqDist_nonneg (fw fh : ℕ) (f : FaceRect) : 0 ≤ sqDist fw fh f :=
  add_nonneg (sq_nonneg _) (sq_nonneg _)

lemma distance_lt_iff (fw fh : ℕ) (a b : FaceRect) :
    distance fw fh a < distance fw fh b ↔ sqDist fw fh a < sqDist fw fh b := by
  unfold distance
  rw [Real.sqrt_lt_sqrt_iff (by exact_mod_cast sqDist_nonneg fw fh a)]
  exact_mod_cast Iff.rfl

lemma distance_le_of_sqDist_le (fw fh : ℕ) {a b : FaceRect}
    (h : sqDist fw fh a ≤ sqDist fw fh b) :
    distance fw fh a ≤ distance fw fh b :=
  Real.sqrt_le_sqrt (by exact_mod_cast h)

lemma closestLoop_some (fw fh : ℕ) (l : List FaceRect) : ∀ g : FaceRect,
    closestLoop fw fh l (some (g, distance fw fh g))
      = some (pickClosest fw fh g l, distance fw fh (pickClosest fw fh g l)) := by
  induction l with
  | nil => intro g; simp [closestLoop, pickClosest]
  | cons f fs ih =>
    intro g
    by_cases hlt : sqDist fw fh f < sqDist fw fh g
    · rw [show closestLoop fw fh (f :: fs) (some (g, distance fw fh g))
          = closestLoop fw fh fs (some (f, distance fw fh f)) by
            simp [closestLoop, if_pos ((distance_lt_iff fw fh f g).mpr hlt)]]
      rw [show pickClosest fw fh g (f :: fs) = pickClosest fw fh f fs by
            simp [pickClosest, if_pos hlt]]
      exact ih f
    · rw [show closestLoop fw fh (f :: fs) (some (g, distance fw fh g))
          = closestLoop fw fh fs (some (g, distance fw fh g)) by
            simp [closestLoop,
              if_neg (fun hc => hlt ((distance_lt_iff fw fh f g).mp hc))]]
      rw [show pickClosest fw fh g (f :: fs) = pickClosest fw fh g fs by
            simp [pickClosest, if_neg hlt]]
      exact ih g

lemma pickClosest_spec (fw fh : ℕ) (l : List FaceRect) : ∀ g : FaceRect,
    (pickClosest fw fh g l = g ∧ ∀ f ∈ l, sqDist fw fh g ≤ sqDist fw fh f) ∨
    (∃ i : Fin l.length, pickClosest fw fh g l = l.get i ∧
      sqDist fw fh (l.get i) < sqDist fw fh g ∧
      (∀ f ∈ l, sqDist fw fh (l.get i) ≤ sqDist fw fh f) ∧
      (∀ j : Fin l.length, (j : ℕ) < (i : ℕ) →
        sqDist fw fh (l.get i) < sqDist fw fh (l.get j))) := by
  induction l with
  | nil => intro g; left; exact ⟨rfl, by simp⟩
  | cons f fs ih =>
    intro g
    by_cases hlt : sqDist fw fh f < sqDist fw fh g
    · have hres : pickClosest fw fh g (f :: fs) = pickClosest fw fh f fs := by
        simp [pickClosest, if_pos hlt]
      rcases ih f with ⟨heq, hall⟩ | ⟨i, hieq, hilt, hall, hearlier⟩
      · right
        refine ⟨⟨0, by simp⟩, by simpa [heq] using hres, by simpa using hlt,
          ?_, ?_⟩
        · intro x hx
          rcases List.mem_cons.mp hx with rfl | hx'
          · simp
          · simpa using hall x hx'
        · intro j hj
          exact absurd hj (Nat.not_lt_zero _)
      · right
        refine ⟨⟨i + 1, by simp [Nat.succ_lt_succ i.isLt]⟩,
          by simpa [hieq] using hres, ?_, ?_, ?_⟩
        · simpa using lt_trans hilt hlt
        · intro x hx
          rcases List.mem_cons.mp hx with rfl | hx'
          · simpa using le_of_lt hilt
          · simpa using hall x hx'
        · rintro ⟨j, hjlt⟩ hj
          match j, hjlt with
          | 0, _ => simpa using hilt
          | (k + 1), hk =>
            have hk' : k < fs.length := Nat.lt_of_succ_lt_succ hk
            have : (⟨k, hk'⟩ : Fin fs.length) < i := by
              simpa using Nat.lt_of_succ_lt_succ hj
            simpa using hearlier ⟨k, hk'⟩ this
    · have hres : pickClosest fw fh g (f :: fs) = pickClosest fw fh g fs := by
        simp [pickClosest, if_neg hlt]
      have hgf : sqDist fw fh g ≤ sqDist fw fh f := not_lt.mp hlt
      rcases ih g with ⟨heq, hall⟩ | ⟨i, hieq, hilt, hall, hearlier⟩
      · left
        refine ⟨by rw [hres, heq], ?_⟩
        intro x hx
        rcases List.mem_cons.mp hx with rfl | hx'
        · exact hgf
        · exact hall x hx'
      · right
        refine ⟨⟨i + 1, by simp [Nat.succ_lt_succ i.isLt]⟩,
          by simpa [hieq] using hres, by simpa using hilt, ?_, ?_⟩
        · intro x hx
          rcases List.mem_cons.mp hx with rfl | hx'
          · simpa using le_of_lt (lt_of_lt_of_le hilt hgf)
          · simpa using hall x hx'
        · rintro ⟨j, hjlt⟩ hj
          match j, hjlt with
          | 0, _ => simpa using lt_of_lt_of_le hilt hgf
          | (k + 1), hk =>
            have hk' : k < fs.length := Nat.lt_of_succ_lt_succ hk
            have : (⟨k, hk'⟩ : Fin fs.length) < i := by
              simpa using Nat.lt_of_succ_lt_succ hj
            simpa using hearlier ⟨k, hk'⟩ this

/-- Claim C8: for an empty detection list `get_closest_face` returns
`None`; for a non-empty list it returns the face whose center is
nearest (Euclidean pixel distance) to the frame center, and on ties the
face listed first in detector return order — every earlier-listed face
is strictly farther. -/
theorem get_closest_face_spec (faces : List FaceRect) (fw fh : ℕ) :
    (faces = [] → get_closest_face faces fw fh = none) ∧
    (faces ≠ [] → ∃ i : Fin faces.length,
      get_closest_face faces fw fh = some (faces.get i) ∧
      (∀ j : Fin faces.length,
        distance fw fh (faces.get i) ≤ distance fw fh (faces.get j)) ∧
      (∀ j : Fin faces.length, (j : ℕ) < (i : ℕ) →
        distance fw fh (faces.get i) < distance fw fh (faces.get j))) := by
  constructor
  · rintro rfl
    simp [get_closest_face]
  · intro hne
    match faces with
    | f :: fs =>
      have h1 : get_closest_face (f :: fs) fw fh
          = some (pickClosest fw fh f fs) := by
        rw [get_closest_face, if_neg (by simp)]
        rw [show closestLoop fw fh (f :: fs) none
            = closestLoop fw fh fs (some (f, distance fw fh f)) by
              simp [closestLoop]]
        rw [closestLoop_some fw fh fs f]
        rfl
      rcases pickClosest_spec fw fh fs f with ⟨heq, hall⟩ |
          ⟨i, hieq, hilt, hall, hearlier⟩
      · refine ⟨⟨0, by simp⟩, by rw [h1, heq]; rfl, ?_, ?_⟩
        · rintro ⟨j, hjlt⟩
          match j, hjlt with
          | 0, _ => simp
          | (k + 1), hk =>
            have hk' : k < fs.length := Nat.lt_of_succ_lt_succ hk
            exact distance_le_of_sqDist_le fw fh
              (by simpa using hall (fs.get ⟨k, hk'⟩) (fs.get_mem _ _))
        · rintro ⟨j, hjlt⟩ hj
          exact absurd hj (Nat.not_lt_zero _)
      · refine ⟨⟨i + 1, by simp [Nat.succ_lt_succ i.isLt]⟩,
          by rw [h1]; simpa using congrArg some hieq, ?_, ?_⟩
        · rintro ⟨j, hjlt⟩
          match j, hjlt with
          | 0, _ =>
            exact distance_le_of_sqDist_le fw fh (by simpa using le_of_lt hilt)
          | (k + 1), hk =>
            have hk' : k < fs.length := Nat.lt_of_succ_lt_succ hk
            exact distance_le_of_sqDist_le fw fh
              (by simpa using hall (fs.get ⟨k, hk'⟩) (fs.get_mem _ _))
        · rintro ⟨j, hjlt⟩ hj
          match j, hjlt with
          | 0, _ =>
            exact (distance_lt_iff fw fh _ _).mpr (by simpa using hilt)
          | (k + 1), hk =>
            have hk' : k < fs.length := Nat.lt_of_succ_lt_succ hk
            have hki : (⟨k, hk'⟩ : Fin fs.length) < i := by
              simpa using Nat.lt_of_succ_lt_succ hj
            exact (distance_lt_iff fw fh _ _).mpr
              (by simpa using hearlier ⟨k, hk'⟩ hki)

/-- Witness for C8: two faces in a 640×480 frame, the first 50 px and
the second 10 px from the frame center — the nearest-face property
holds for this concrete list. -/
theorem get_closest_face_spec_witness :
    ∃ i : Fin ([⟨240, 220, 60, 40⟩, ⟨300, 220, 60, 40⟩] :
        List FaceRect).length,
      get_closest_face [⟨240, 220, 60, 40⟩, ⟨300, 220, 60, 40⟩] 640 480
        = some (([⟨240, 220, 60, 40⟩, ⟨300, 220, 60, 40⟩] :
            List FaceRect).get i) ∧
      (∀ j : Fin ([⟨240, 220, 60, 40⟩, ⟨300, 220, 60, 40⟩] :
          List FaceRect).length,
        distance 640 480 (([⟨240, 220, 60, 40⟩, ⟨300, 220, 60, 40⟩] :
          List FaceRect).get i)
        ≤ distance 640 480 (([⟨240, 220, 60, 40⟩, ⟨300, 220, 60, 40⟩] :
          List FaceRect).get j)) ∧
      (∀ j : Fin ([⟨240, 220, 60, 40⟩, ⟨300, 220, 60, 40⟩] :
          List FaceRect).length, (j : ℕ) < (i : ℕ) →
        distance 640 480 (([⟨240, 220, 60, 40⟩, ⟨300, 220, 60, 40⟩] :
            List FaceRect).get i)
          < distance 640 480 (([⟨240, 220, 60, 40⟩, ⟨300, 220, 60, 40⟩] :
            List FaceRect).get j)) :=
  (get_closest_face_spec [⟨240, 220, 60, 40⟩, ⟨300, 220, 60, 40⟩] 640 480).2
    (by simp)

end Tracker

namespace AudioMouth

/-- Claim C2: viseme classification is the pure deterministic threshold
ladder over the opening percentage: `< 5` CLOSED, `< 20` NARROW, `< 35`
ROUNDED, `< 50` MEDIUM, `< 70` MEDIUM_OPEN, otherwise WIDE (in
particular for every opening in `[0,100]`). -/
theorem viseme_ladder (opening : ℝ) :
    (opening < 5 → get_viseme_from_opening opening = .CLOSED) ∧
    (5 ≤ opening → opening < 20 → get_viseme_from_opening opening = .NARROW) ∧
    (20 ≤ opening → opening < 35 → get_viseme_from_opening opening = .ROUNDED) ∧
    (35 ≤ opening → opening < 50 → get_viseme_from_opening opening = .MEDIUM) ∧
    (50 ≤ opening → opening < 70 → get_viseme_from_opening opening = .MEDIUM_OPEN) ∧
    (70 ≤ opening → get_viseme_from_opening opening = .WIDE) := by
  unfold get_viseme_from_opening
  refine ⟨?_, ?_, ?_, ?_, ?_, ?_⟩ <;> intros <;>
    simp_all only [if_pos, if_neg, not_lt] <;>
    repeat' rw [if_neg (by linarith)]

/-- Witness for C2: the ladder evaluated at the concrete opening 25
yields ROUNDED. -/
theorem viseme_ladder_witness : get_viseme_from_opening 25 = .ROUNDED :=
  (viseme_ladder 25).2.2.1 (by norm_num) (by norm_num)

lemma targetOf_nonneg (p : Params) (a : ℝ) : 0 ≤ targetOf p a := by
  unfold targetOf
  have h0 : (0:ℝ) ≤ max 0 (min 1 ((a - p.min_threshold) / (p.max_threshold - p.min_threshold))) :=
    le_max_left _ _
  have := Real.rpow_nonneg h0 (0.8 : ℝ)
  nlinarith

lemma targetOf_le_100 (p : Params) (a : ℝ) : targetOf p a ≤ 100 := by
  unfold targetOf
  set x := max 0 (min 1 ((a - p.min_threshold) / (p.max_threshold - p.min_threshold))) with hx
  have h0 : (0:ℝ) ≤ x := le_max_left _ _
  have h1 : x ≤ 1 := by
    apply max_le (by norm_num)
    exact min_le_left _ _
  have := Real.rpow_le_one h0 h1 (by norm_num : (0:ℝ) ≤ 0.8)
  nlinarith

lemma ease_bounds {cs cur tgt : ℝ} (hcs : 0 ≤ cs) (h0c : 0 ≤ cur)
    (hc : cur ≤ 100) (h0t : 0 ≤ tgt) (ht : tgt ≤ 100) :
    0 ≤ ease cs cur tgt ∧ ease cs cur tgt ≤ 100 := by
  unfold ease
  split
  · constructor
    · exact le_trans h0t (le_max_left _ _)
    · apply max_le ht
      have : 0 ≤ (cur - tgt) * cs := mul_nonneg (by linarith) hcs
      linarith
  · constructor
    · apply le_min h0t
      have : 0 ≤ (tgt - cur) * 0.4 := mul_nonneg (by linarith) (by norm_num)
      linarith
    · exact le_trans (min_le_left _ _) ht

lemma processChunk_opening_mem (p : Params) (hcs : 0 ≤ p.close_speed)
    (s : AMCState) (c : List ℤ)
    (h : 0 ≤ s.current_opening ∧ s.current_opening ≤ 100) :
    0 ≤ (processChunk p s c).current_opening ∧
    (processChunk p s c).current_opening ≤ 100 := by
  simp only [processChunk]
  by_cases hsm : smoothedAmp p s c < p.min_threshold
  · simp only [if_pos hsm]
    split
    · norm_num
    · exact ease_bounds hcs h.1 h.2 le_rfl (by norm_num)
  · simp only [if_neg hsm]
    have he := ease_bounds hcs h.1 h.2 (targetOf_nonneg p (smoothedAmp p s c))
      (targetOf_le_100 p (smoothedAmp p s c))
    simpa using he

/-- Claim C1: for every sequence of audio chunks, the opening returned
by `process_audio_chunk` (the stored `current_opening`) lies in
`[0,100]` after every call, whenever the configured `close_speed` is
nonnegative (the default is 0.7). -/
theorem opening_in_range (p : Params) (hcs : 0 ≤ p.close_speed)
    (chunks : List (List ℤ)) (n : ℕ) :
    0 ≤ ((chunks.take n).foldl (processChunk p) initState).current_opening ∧
    ((chunks.take n).foldl (processChunk p) initState).current_opening ≤ 100 := by
  suffices H : ∀ (l : List (List ℤ)) (s : AMCState),
      0 ≤ s.current_opening ∧ s.current_opening ≤ 100 →
      0 ≤ (l.foldl (processChunk p) s).current_opening ∧
      (l.foldl (processChunk p) s).current_opening ≤ 100 by
    exact H (chunks.take n) initState (by norm_num [initState])
  intro l
  induction l with
  | nil => intro s hs; exact hs
  | cons c cs ih =>
    intro s hs
    exact ih _ (processChunk_opening_mem p hcs s c hs)

/-- Witness for C1: the default parameters have nonnegative
`close_speed` and a one-chunk run stays in `[0,100]`. -/
theorem opening_in_range_witness :
    0 ≤ ((([[0]] : List (List ℤ)).take 1).foldl
        (processChunk defaultParams) initState).current_opening ∧
    ((([[0]] : List (List ℤ)).take 1).foldl
        (processChunk defaultParams) initState).current_opening ≤ 100 :=
  opening_in_range defaultParams (by norm_num [defaultParams]) [[0]] 1

/-- Claim C6: the easing step of `process_audio_chunk` is asymmetric —
closing moves by `(current - target) * close_speed`, opening by
`(target - current) * 0.4`, both clamped so the target is never
overshot; `process_audio_chunk` applies exactly this step whenever the
silence counter does not force the opening to 0; and with the default
speeds the closing step is never smaller than the opening step for the
same gap. -/
theorem asymmetric_easing (p : Params) (s : AMCState) (c : List ℤ)
    (cur tgt g : ℝ) :
    (tgt < cur →
      ease p.close_speed cur tgt = max tgt (cur - (cur - tgt) * p.close_speed)) ∧
    (¬ tgt < cur →
      ease p.close_speed cur tgt = min tgt (cur + (tgt - cur) * 0.4)) ∧
    (tgt < cur → tgt ≤ ease p.close_speed cur tgt) ∧
    (¬ tgt < cur → ease p.close_speed cur tgt ≤ tgt) ∧
    ((processChunk p s c).silence_counter ≤ 2 →
      (processChunk p s c).current_opening
        = ease p.close_speed s.current_opening (processChunk p s c).target_opening) ∧
    (0 ≤ g →
      ease (0.7 : ℝ) cur (cur + g) - cur ≤ cur - ease (0.7 : ℝ) cur (cur - g)) := by
  refine ⟨?_, ?_, ?_, ?_, ?_, ?_⟩
  · intro h; rw [ease, if_pos h]
  · intro h; rw [ease, if_neg h]
  · intro h; rw [ease, if_pos h]; exact le_max_left _ _
  · intro h; rw [ease, if_neg h]; exact min_le_left _ _
  · simp only [processChunk]
    intro h
    rw [if_neg (by omega)]
  · intro hg
    unfold ease
    rcases lt_or_eq_of_le hg with hpos | hzero
    · rw [if_neg (by linarith), if_pos (by linarith)]
      rw [min_eq_right (by nlinarith), max_eq_right (by nlinarith)]
      nlinarith
    · rw [← hzero]
      norm_num

lemma rms_zero_chunk : rms [0] = 0 := by
  simp [rms]

lemma processChunk_default_zero_1 :
    processChunk defaultParams initState [0]
      = ⟨[0], 0, 0, false, 1⟩ := by
  have hs : smoothedAmp defaultParams initState [0] = 0 := by
    simp [smoothedAmp, pushWindow, meanList, rms_zero_chunk, initState, defaultParams]
  simp only [processChunk, hs]
  norm_num [defaultParams, initState, pushWindow, meanList, rms_zero_chunk, ease]

lemma smoothedAmp_default_zero_1 :
    smoothedAmp defaultParams initState [0] < defaultParams.min_threshold := by
  have hs : smoothedAmp defaultParams initState [0] = 0 := by
    simp [smoothedAmp, pushWindow, meanList, rms_zero_chunk, initState, defaultParams]
  rw [hs]; norm_num [defaultParams]

lemma smoothedAmp_default_zero_2 :
    smoothedAmp defaultParams ⟨[0], 0, 0, false, 1⟩ [0]
      < defaultParams.min_threshold := by
  have hs : smoothedAmp defaultParams ⟨[0], 0, 0, false, 1⟩ [0] = 0 := by
    simp [smoothedAmp, pushWindow, meanList, rms_zero_chunk, defaultParams]
  rw [hs]; norm_num [defaultParams]

lemma processChunk_default_zero_2 :
    processChunk defaultParams ⟨[0], 0, 0, false, 1⟩ [0]
      = ⟨[0, 0], 0, 0, false, 2⟩ := by
  have hs : smoothedAmp defaultParams ⟨[0], 0, 0, false, 1⟩ [0] = 0 := by
    simp [smoothedAmp, pushWindow, meanList, rms_zero_chunk, defaultParams]
  simp only [processChunk, hs]
  norm_num [defaultParams, pushWindow, meanList, rms_zero_chunk, ease]

lemma smoothedAmp_default_zero_3 :
    smoothedAmp defaultParams ⟨[0, 0], 0, 0, false, 2⟩ [0]
      < defaultParams.min_threshold := by
  have hs : smoothedAmp defaultParams ⟨[0, 0], 0, 0, false, 2⟩ [0] = 0 := by
    simp [smoothedAmp, pushWindow, meanList, rms_zero_chunk, defaultParams]
  rw [hs]; norm_num [defaultParams]

lemma counter_step (p : Params) (s : AMCState) (c : List ℤ)
    (h : smoothedAmp p s c < p.min_threshold) :
    (processChunk p s c).silence_counter = s.silence_counter + 1 := by
  simp [processChunk, h]

lemma opening_force (p : Params) (s : AMCState) (c : List ℤ)
    (hsm : smoothedAmp p s c < p.min_threshold)
    (hcnt : s.silence_counter = 2) :
    (processChunk p s c).current_opening = 0 := by
  simp [processChunk, hsm, hcnt]

/-- Claim C7: starting from a state whose silence counter is 0, after 3
consecutive chunks whose smoothed amplitude is below `min_threshold`
the opening returned on the 3rd chunk is exactly 0, irrespective of any
prior easing state. -/
theorem silence_forces_zero (p : Params) (s : AMCState) (c1 c2 c3 : List ℤ)
    (h0 : s.silence_counter = 0)
    (h1 : smoothedAmp p s c1 < p.min_threshold)
    (h2 : smoothedAmp p (processChunk p s c1) c2 < p.min_threshold)
    (h3 : smoothedAmp p (processChunk p (processChunk p s c1) c2) c3
            < p.min_threshold) :
    (processChunk p (processChunk p (processChunk p s c1) c2) c3).current_opening
      = 0 := by
  have e1 : (processChunk p s c1).silence_counter = 1 := by
    rw [counter_step p s c1 h1, h0]
  have e2 : (processChunk p (processChunk p s c1) c2).silence_counter = 2 := by
    rw [counter_step p _ c2 h2, e1]
  exact opening_force p _ c3 h3 e2

/-- Witness for C6: the easing equations, the no-overshoot bounds, the
easing step inside `process_audio_chunk` on a concrete zero chunk, and
the closing-vs-opening comparison, at concrete inputs. -/
theorem asymmetric_easing_witness :
    (ease defaultParams.close_speed 50 30
      = max 30 (50 - (50 - 30) * defaultParams.close_speed)) ∧
    (ease defaultParams.close_speed 30 50 = min 50 (30 + (50 - 30) * 0.4)) ∧
    (30 ≤ ease defaultParams.close_speed 50 30) ∧
    (ease defaultParams.close_speed 30 50 ≤ 50) ∧
    ((processChunk defaultParams initState [0]).current_opening
      = ease defaultParams.close_speed initState.current_opening
          (processChunk defaultParams initState [0]).target_opening) ∧
    (ease (0.7 : ℝ) 50 (50 + 10) - 50 ≤ 50 - ease (0.7 : ℝ) 50 (50 - 10)) :=
  ⟨(asymmetric_easing defaultParams initState [0] 50 30 10).1 (by norm_num),
   (asymmetric_easing defaultParams initState [0] 30 50 10).2.1 (by norm_num),
   (asymmetric_easing defaultParams initState [0] 50 30 10).2.2.1 (by norm_num),
   (asymmetric_easing defaultParams initState [0] 30 50 10).2.2.2.1 (by norm_num),
   (asymmetric_easing defaultParams initState [0] 50 30 10).2.2.2.2.1
     (by rw [processChunk_default_zero_1]; norm_num),
   (asymmetric_easing defaultParams initState [0] 50 30 10).2.2.2.2.2 (by norm_num)⟩

/-- Witness for C7: three all-zero chunks from the reset state leave the
returned opening at exactly 0. -/
theorem silence_forces_zero_witness :
    (processChunk defaultParams
      (processChunk defaultParams
        (processChunk defaultParams initState [0]) [0]) [0]).current_opening
      = 0 :=
  silence_forces_zero defaultParams initState [0] [0] [0] rfl
    smoothedAmp_default_zero_1
    (by rw [processChunk_default_zero_1]; exact smoothedAmp_default_zero_2)
    (by rw [processChunk_default_zero_1, processChunk_default_zero_2]
        exact smoothedAmp_default_zero_3)

end AudioMouth
